import Mathlib

/-
Shallow embedding of the outreach orchestration and provider status-mapping
layer of the sales-pipeline backend.

Sources embedded (JavaScript):
  - src/src/services/outreach.js     (OutreachService: hasChannelAccess,
    sendEmail, scheduleCall, sendLinkedInConnection, sendLinkedInMessage,
    syncOutreachStatus, mapInstantlyStatusToOutreach)
  - src/src/services/salesfinity.js  (SalesfinityService: mapCallOutcome,
    mapCallStatus, mapLeadToSalesfinityContact, mapSalesfinityCallToOutreach)
  - src/src/services/linkedin.js     (LinkedInService: createConnectionTemplate,
    createMessageTemplate, determineOutreachStatus, mapLinkedInOutreachToInternal)
  - src/unnamed/part_005 and part_004 (legacy SalesfinityService copies:
    mapCallOutcome lookup table)
  - src/unnamed/part_010             (mongoose outreachSchema: the persisted
    shape of an Outreach record)

Conventions of the embedding:
  - JavaScript strings are Lean `String`; absent (`undefined`/`null`) values
    are `Option`; JS falsiness of the empty string is modelled explicitly.
  - Dates are `Nat` timestamps; `Date.now()` is an explicit `now` parameter.
  - Network calls are an explicit environment: each remote call's outcome is
    a field of an `Env` structure of type `Except String α`, where the error
    carries the thrown message.  The document store is explicit state
    (association lists keyed by id), passed and returned.
  - The persisted record type follows the mongoose schema (part_010); paths
    written by the services that have no schema path are dropped, which is
    mongoose strict-mode behaviour (strict defaults to true).
-/

namespace SalesPipeline

/-! ### JavaScript value helpers -/

/-- JS `a || b` where `a` is a possibly-absent string: `undefined`, `null`
and the empty string are falsy. -/
def jsOrS : Option String → String → String
  | some s, dflt => if s = "" then dflt else s
  | none, dflt => dflt

/-- JS truthiness test for a possibly-absent string. -/
def jsTruthyS : Option String → Bool
  | some s => s ≠ ""
  | none => false

/-- JS string coercion of a possibly-absent value, as performed by
`String.prototype.replace` on its replacement argument: `undefined` is
coerced to the string "undefined". -/
def jsStr : Option String → String
  | some s => s
  | none => "undefined"

/-- First-occurrence string replacement, the semantics of JS
`String.prototype.replace` with a plain string pattern. -/
def replaceFirst (s pat rep : String) : String :=
  match s.splitOn pat with
  | [] => s
  | [_] => s
  | h :: t => h ++ rep ++ String.intercalate pat t

/-- JS `s.substring(0, n)`: the first `n` characters of `s` (clamped). -/
def jsSubstring (s : String) (n : Nat) : String :=
  ⟨s.data.take n⟩

/-- Lookup in a JS object-literal lookup table (`table[key]`), `Option`-valued. -/
def jsLookup (table : List (String × String)) (key : String) : Option String :=
  (table.find? (fun p => p.1 = key)).map (fun p => p.2)

/-! ### Data model

The persisted `Outreach` shape follows the mongoose `outreachSchema`
(src/unnamed/part_010).  Only schema paths exist on the persisted record;
mongoose strict mode (the default) silently drops any other path that the
services try to set. -/

/-- A lead, with the fields the orchestration layer reads
(models/lead consumers in outreach.js, salesfinity.js, linkedin.js). -/
structure Lead where
  id : String
  email : String := ""
  firstName : Option String := none
  lastName : Option String := none
  company : Option String := none
  jobTitle : Option String := none
  phone : Option String := none
  linkedinUrl : Option String := none
  industry : Option String := none
  website : Option String := none
  deriving Repr, DecidableEq

/-- A campaign, with the fields sendEmail reads. -/
structure Campaign where
  id : String
  name : String
  description : Option String := none
  deriving Repr, DecidableEq

/-- outreachSchema.email (part_010 lines 40-51). -/
structure EmailInfo where
  subject : Option String := none
  body : Option String := none
  fromEmail : Option String := none
  fromName : Option String := none
  openedAt : Option Nat := none
  clickedAt : Option Nat := none
  repliedAt : Option Nat := none
  bounceReason : Option String := none
  links : List String := []
  attachments : List String := []
  deriving Repr, DecidableEq

/-- outreachSchema.call (part_010 lines 53-62). -/
structure CallInfo where
  duration : Option Nat := none
  notes : Option String := none
  recordingUrl : Option String := none
  dialedNumber : Option String := none
  outcome : Option String := none
  deriving Repr, DecidableEq

/-- outreachSchema.linkedin (part_010 lines 64-74). -/
structure LinkedInInfo where
  messageType : Option String := none
  message : Option String := none
  connectionStatus : Option String := none
  deriving Repr, DecidableEq

/-- outreachSchema.response (part_010 lines 76-89). -/
structure ResponseInfo where
  received : Bool := false
  responseText : Option String := none
  responseDate : Option Nat := none
  sentiment : String := "N/A"
  nextSteps : Option String := none
  deriving Repr, DecidableEq

/-- outreachSchema.externalIds (part_010 lines 107-111).  The schema defines
exactly these three keys; in particular there is no `instantlyCampaignId`
path. -/
structure ExternalIds where
  instantlyId : Option String := none
  salesfinityId : Option String := none
  linkedinActivityId : Option String := none
  deriving Repr, DecidableEq

/-- The persisted Outreach record (outreachSchema, part_010). -/
structure OutreachRecord where
  lead : String
  campaign : Option String := none
  sequence : Option String := none
  type : String
  channel : String
  status : String := "Scheduled"
  scheduledAt : Option Nat := none
  sentAt : Option Nat := none
  email : EmailInfo := {}
  call : CallInfo := {}
  linkedin : LinkedInInfo := {}
  response : ResponseInfo := {}
  followUps : List String := []
  parentOutreach : Option String := none
  followUpCount : Nat := 0
  notes : Option String := none
  externalIds : ExternalIds := {}
  performedBy : String
  deriving Repr, DecidableEq

/-- Document stores are association lists keyed by document id. -/
abbrev Store (α : Type) : Type := List (String × α)

/-- Model.findById. -/
def findById {α : Type} (st : Store α) (i : String) : Option α :=
  (st.find? (fun p => p.1 = i)).map (fun p => p.2)

/-- Save an updated document under an existing id. -/
def storeSet {α : Type} (st : Store α) (i : String) (a : α) : Store α :=
  st.map (fun p => if p.1 = i then (i, a) else p)

/-- Save a freshly created document under a new id. -/
def storeAdd {α : Type} (st : Store α) (i : String) (a : α) : Store α :=
  st ++ [(i, a)]

/-! ### Users, integrations, channel access (outreach.js lines 75-91) -/

/-- One per-provider entry of a user's `integrations` sub-object; only the
`enabled` flag is read by hasChannelAccess. -/
structure IntegrationEntry where
  enabled : Bool := false
  deriving Repr, DecidableEq

/-- A user's `integrations` sub-object; each entry may be absent. -/
structure Integrations where
  instantly : Option IntegrationEntry := none
  salesfinity : Option IntegrationEntry := none
  linkedin : Option IntegrationEntry := none
  deriving Repr, DecidableEq

/-- The part of a user hasChannelAccess reads; `integrations` may be absent
(the JS code uses optional chaining). -/
structure User where
  integrations : Option Integrations := none
  deriving Repr, DecidableEq

/-- Which process-wide default services were constructed from environment
variables (OutreachService constructor, outreach.js lines 14-25):
`defaultInstantlyService`, `defaultSalesfinityService`,
`defaultLinkedInService` are defined or undefined. -/
structure Defaults where
  instantly : Bool := false
  salesfinity : Bool := false
  linkedin : Bool := false
  deriving Repr, DecidableEq

/-- JS `user.integrations?.instantly?.enabled` style access. -/
def integrationEnabled (f : Integrations → Option IntegrationEntry) (u : User) : Bool :=
  match u.integrations with
  | none => false
  | some ints =>
    match f ints with
    | none => false
    | some e => e.enabled

/-- OutreachService.hasChannelAccess (outreach.js lines 75-91): a switch on
the channel string; unknown channels return false. -/
def hasChannelAccess (d : Defaults) (user : User) (channel : String) : Bool :=
  match channel with
  | "Instantly" => integrationEnabled (fun i => i.instantly) user || d.instantly
  | "Salesfinity" => integrationEnabled (fun i => i.salesfinity) user || d.salesfinity
  | "LinkedIn" => integrationEnabled (fun i => i.linkedin) user || d.linkedin
  | "Personal Email" => true
  | _ => false

/-- Modelled from the spec's words (section 4.2): entitlement is true if the
user has the channel enabled OR a global default exists for that channel,
and the "Personal Email" channel is always permitted.  A channel other than
the three provider channels has no user integration and no global default. -/
def specChannelAccess (d : Defaults) (user : User) (channel : String) : Bool :=
  if channel = "Personal Email" then
    true
  else
    (if channel = "Instantly" then integrationEnabled (fun i => i.instantly) user
     else if channel = "Salesfinity" then integrationEnabled (fun i => i.salesfinity) user
     else if channel = "LinkedIn" then integrationEnabled (fun i => i.linkedin) user
     else false)
    ||
    (if channel = "Instantly" then d.instantly
     else if channel = "Salesfinity" then d.salesfinity
     else if channel = "LinkedIn" then d.linkedin
     else false)

/-! ### LinkedIn service: template helpers (linkedin.js lines 129-149)

The placeholder substitution uses JS `String.prototype.replace` with a plain
string pattern, which replaces the first occurrence only; an absent lead
field is coerced to the string "undefined" by `replace` for the first two
placeholders, while the last two fall back through `||` to a bracketed
placeholder. -/

/-- LinkedInService.createConnectionTemplate (linkedin.js lines 129-140):
substitutes the four placeholders, then truncates to LinkedIn's
300-character connection-request limit via `substring(0, 300)`. -/
def createConnectionTemplate (message : String) (lead : Lead) : String :=
  let template :=
    replaceFirst
      (replaceFirst
        (replaceFirst
          (replaceFirst message "\x7b\x7bfirstName\x7d\x7d" (jsStr lead.firstName))
          "\x7b\x7blastName\x7d\x7d" (jsStr lead.lastName))
        "\x7b\x7bcompany\x7d\x7d" (jsOrS lead.company "[company]"))
      "\x7b\x7bposition\x7d\x7d" (jsOrS lead.jobTitle "[position]")
  jsSubstring template 300

/-- LinkedInService.createMessageTemplate (linkedin.js lines 142-149): the
same substitution without any truncation. -/
def createMessageTemplate (message : String) (lead : Lead) : String :=
  replaceFirst
    (replaceFirst
      (replaceFirst
        (replaceFirst message "\x7b\x7bfirstName\x7d\x7d" (jsStr lead.firstName))
        "\x7b\x7blastName\x7d\x7d" (jsStr lead.lastName))
      "\x7b\x7bcompany\x7d\x7d" (jsOrS lead.company "[company]"))
    "\x7b\x7bposition\x7d\x7d" (jsOrS lead.jobTitle "[position]")

/-! ### SalesfinityService as resolved by require('./salesfinity')
(src/src/services/salesfinity.js): the pure mapping functions. -/

namespace Salesfinity

/-- The `disposition` sub-object of a Salesfinity call-log record. -/
structure SfDisposition where
  external_name : Option String := none
  name : Option String := none
  deriving Repr, DecidableEq

/-- A Salesfinity call-log record, with the fields the mappers read.  The
source fields `_id`, `to` and `from` are named `callId`, `toNumber` and
`fromNumber` here because Lean reserves those spellings. -/
structure SfCall where
  callId : Option String := none
  toNumber : Option String := none
  fromNumber : Option String := none
  transcription : Option String := none
  recording_url : Option String := none
  disposition : Option SfDisposition := none
  status : Option String := none
  createdAt : Option Nat := none
  updatedAt : Option Nat := none
  deriving Repr, DecidableEq

/-- SalesfinityService.mapCallOutcome (salesfinity.js lines 435-439): when a
disposition is present this returns the raw `external_name` unchanged
(falling back to "Unknown" when it is absent); there is no lookup table in
this version of the service. -/
def mapCallOutcome (call : SfCall) : String :=
  match call.disposition with
  | none => "Unknown"
  | some d => jsOrS d.external_name "Unknown"

/-- The `statusMap` object inside mapCallStatus (salesfinity.js lines 414-423). -/
def sfStatusMap : List (String × String) :=
  [("completed", "Completed"), ("no-answer", "No Answer"), ("busy", "Busy"),
   ("failed", "Failed"), ("canceled", "Canceled"), ("not_reached", "Not Reached"),
   ("machine_detection", "Voicemail"), ("voicemail", "Voicemail")]

/-- SalesfinityService.mapCallStatus (salesfinity.js lines 406-428). -/
def mapCallStatus (call : SfCall) : String :=
  match call.disposition with
  | some d => jsOrS d.external_name (jsOrS d.name "Unknown")
  | none =>
    match call.status with
    | some s =>
      if s = "" then "Unknown"
      else (jsLookup sfStatusMap s.toLower).getD s
    | none => "Unknown"

/-- The Salesfinity-contact shape produced by mapLeadToSalesfinityContact. -/
structure SfContact where
  firstName : Option String := none
  lastName : Option String := none
  company : String := ""
  jobTitle : String := ""
  phone : String := ""
  email : String := ""
  industry : String := ""
  website : String := ""
  linkedinUrl : String := ""
  internalId : String := ""
  deriving Repr, DecidableEq

/-- SalesfinityService.mapLeadToSalesfinityContact (salesfinity.js lines
355-370); `customFields` is flattened into the structure. -/
def mapLeadToSalesfinityContact (lead : Lead) : SfContact :=
  { firstName := lead.firstName
    lastName := lead.lastName
    company := jsOrS lead.company ""
    jobTitle := jsOrS lead.jobTitle ""
    phone := jsOrS lead.phone ""
    email := jsOrS (some lead.email) ""
    industry := jsOrS lead.industry ""
    website := jsOrS lead.website ""
    linkedinUrl := jsOrS lead.linkedinUrl ""
    internalId := lead.id }

end Salesfinity

/-! ### Legacy SalesfinityService copies (src/unnamed/part_005 lines 209-221
and src/unnamed/part_004 lines 453-465): the documented call-outcome lookup
table, absent from the currently resolved salesfinity.js. -/

namespace SalesfinityLegacy

/-- The `outcomeMap` lookup table shared by both legacy copies. -/
def outcomeMap : List (String × String) :=
  [("answered", "Answered"), ("voicemail", "Voicemail"), ("no_answer", "No Answer"),
   ("busy", "Busy"), ("wrong_number", "Wrong Number"), ("not_interested", "Not Interested"),
   ("interested", "Interested"), ("meeting_scheduled", "Meeting Scheduled")]

/-- Legacy SalesfinityService.mapCallOutcome (part_005 lines 209-221,
identically part_004 lines 453-465): table lookup with default "No Answer"
(a table miss or an absent argument is falsy, so `||` yields the default). -/
def mapCallOutcome (salesfinityOutcome : Option String) : String :=
  match salesfinityOutcome with
  | none => "No Answer"
  | some s => jsOrS (jsLookup outcomeMap s) "No Answer"

end SalesfinityLegacy

/-! ### The `updatedData` objects produced by the three status mappers and
merged into the record by syncOutreachStatus (outreach.js lines 451-460).

The merge is a JS object spread: a key present in the update overwrites the
field, a key absent keeps the old value.  An outer `Option` on an update
field models key presence; where a mapper can put an explicit `null` under a
present key, the value type is itself optional. -/

/-- The `email` sub-object mapInstantlyStatusToOutreach builds: each key is
added only conditionally. -/
structure EmailUpd where
  openedAt : Option Nat := none
  clickedAt : Option Nat := none
  repliedAt : Option Nat := none
  bounceReason : Option String := none
  deriving Repr, DecidableEq

/-- The `call` sub-object mapSalesfinityCallToOutreach builds (salesfinity.js
lines 386-394): every key is present.  The source keys `to`, `from` are
`toNumber`, `fromNumber` here (reserved spellings). -/
structure CallUpd where
  toNumber : String := ""
  fromNumber : String := ""
  notes : String := ""
  dialedNumber : String := ""
  outcome : String := ""
  recordingUrl : String := ""
  disposition : String := ""
  deriving Repr, DecidableEq

/-- The `linkedin` sub-object mapLinkedInOutreachToInternal builds: every key
is present. -/
structure LinkedInUpd where
  messageType : String := ""
  message : String := ""
  connectionStatus : String := ""
  deriving Repr, DecidableEq

/-- The `response` sub-object of an update.  mapInstantlyStatusToOutreach
sets only `received` and `responseDate`; mapLinkedInOutreachToInternal sets
all four keys and may set `responseDate` to an explicit null. -/
structure ResponseUpd where
  received : Option Bool := none
  responseText : Option String := none
  responseDate : Option (Option Nat) := none
  sentiment : Option String := none
  deriving Repr, DecidableEq

/-- The `externalIds` sub-object of an update; syncOutreachStatus never
reads it back into the record. -/
structure ExternalIdsUpd where
  salesfinityId : Option String := none
  linkedinActivityId : Option String := none
  deriving Repr, DecidableEq

/-- The shape shared by the values of `updatedData` in syncOutreachStatus:
the fields the merge reads (`status`, `sentAt`, `email`, `call`, `linkedin`,
`response`) plus the fields some mappers also emit but the merge ignores. -/
structure UpdatedData where
  status : String
  sentAt : Option Nat := none
  scheduledAt : Option Nat := none
  lead : Option String := none
  type : Option String := none
  channel : Option String := none
  email : Option EmailUpd := none
  call : Option CallUpd := none
  linkedin : Option LinkedInUpd := none
  response : Option ResponseUpd := none
  externalIds : Option ExternalIdsUpd := none
  deriving Repr, DecidableEq

/-- JS `\x7b...old, ...upd\x7d` on the email sub-object: update keys
overwrite, absent keys keep the old value. -/
def mergeEmail (old : EmailInfo) (u : EmailUpd) : EmailInfo :=
  { old with
    openedAt := match u.openedAt with | some v => some v | none => old.openedAt
    clickedAt := match u.clickedAt with | some v => some v | none => old.clickedAt
    repliedAt := match u.repliedAt with | some v => some v | none => old.repliedAt
    bounceReason := match u.bounceReason with | some v => some v | none => old.bounceReason }

/-- Spread merge on the call sub-object.  Every key of a CallUpd is present,
so it overwrites; `duration` is never in an update and is kept.  The update
keys `to`, `from` and `disposition` have no path in outreachSchema.call
(part_010 lines 53-62), so mongoose strict mode drops them on assignment. -/
def mergeCall (old : CallInfo) (u : CallUpd) : CallInfo :=
  { duration := old.duration
    notes := some u.notes
    recordingUrl := some u.recordingUrl
    dialedNumber := some u.dialedNumber
    outcome := some u.outcome }

/-- Spread merge on the linkedin sub-object: all three keys are present in
an update and overwrite. -/
def mergeLinkedIn (_old : LinkedInInfo) (u : LinkedInUpd) : LinkedInInfo :=
  { messageType := some u.messageType
    message := some u.message
    connectionStatus := some u.connectionStatus }

/-- Spread merge on the response sub-object; a present key overwrites even
when its value is an explicit null. -/
def mergeResponse (old : ResponseInfo) (u : ResponseUpd) : ResponseInfo :=
  { received := match u.received with | some v => v | none => old.received
    responseText := match u.responseText with | some v => some v | none => old.responseText
    responseDate := match u.responseDate with | some v => v | none => old.responseDate
    sentiment := match u.sentiment with | some v => v | none => old.sentiment
    nextSteps := old.nextSteps }

/-- The field-level overlay performed by syncOutreachStatus when
`updatedData` is non-null (outreach.js lines 451-460): `status` and `sentAt`
are assigned directly; the four sub-objects are spread-merged only when
present in the update; every other record field is untouched. -/
def mergeOutreach (r : OutreachRecord) (u : UpdatedData) : OutreachRecord :=
  { r with
    status := u.status
    sentAt := u.sentAt
    email := match u.email with | some e => mergeEmail r.email e | none => r.email
    call := match u.call with | some c => mergeCall r.call c | none => r.call
    linkedin := match u.linkedin with | some l => mergeLinkedIn r.linkedin l | none => r.linkedin
    response := match u.response with | some p => mergeResponse r.response p | none => r.response }

namespace Salesfinity

/-- SalesfinityService.mapSalesfinityCallToOutreach (salesfinity.js lines
378-399).  `new Date(call.createdAt || Date.now())` and the `updatedAt`
analogue are modelled with the explicit `now` parameter. -/
def mapSalesfinityCallToOutreach (call : SfCall) (leadId : String) (now : Nat) :
    UpdatedData :=
  { status := mapCallStatus call
    sentAt := some (call.updatedAt.getD now)
    scheduledAt := some (call.createdAt.getD now)
    lead := some leadId
    type := some "Call"
    channel := some "Salesfinity"
    call := some
      { toNumber := jsOrS call.toNumber ""
        fromNumber := jsOrS call.fromNumber ""
        notes := jsOrS call.transcription ""
        dialedNumber := jsOrS call.toNumber ""
        outcome := mapCallOutcome call
        recordingUrl := jsOrS call.recording_url ""
        disposition :=
          match call.disposition with
          | some d => jsOrS d.external_name "Unknown"
          | none => "Unknown" }
    externalIds := some { salesfinityId := call.callId } }

end Salesfinity

/-! ### Instantly status mapping (outreach.js lines 470-508) -/

/-- The provider lead-status record read by mapInstantlyStatusToOutreach. -/
structure InstantlyStatus where
  status : Option String := none
  sentAt : Option Nat := none
  openedAt : Option Nat := none
  clickedAt : Option Nat := none
  repliedAt : Option Nat := none
  bounceReason : Option String := none
  deriving Repr, DecidableEq

/-- The `statusMap` object inside mapInstantlyStatusToOutreach (outreach.js
lines 471-479). -/
def instantlyStatusMap : List (String × String) :=
  [("sent", "Sent"), ("delivered", "Delivered"), ("opened", "Opened"),
   ("clicked", "Clicked"), ("replied", "Replied"), ("bounced", "Bounced"),
   ("failed", "Failed")]

/-- OutreachService.mapInstantlyStatusToOutreach (outreach.js lines
470-508).  `email` is always present (possibly with no keys set); `response`
is present only when the provider reports a reply. -/
def mapInstantlyStatusToOutreach (instantlyStatus : InstantlyStatus) : UpdatedData :=
  { status :=
      match instantlyStatus.status with
      | some s => jsOrS (jsLookup instantlyStatusMap s) "Scheduled"
      | none => "Scheduled"
    sentAt := instantlyStatus.sentAt
    email := some
      { openedAt := instantlyStatus.openedAt
        clickedAt := instantlyStatus.clickedAt
        repliedAt := instantlyStatus.repliedAt
        bounceReason :=
          match instantlyStatus.bounceReason with
          | some b => if b = "" then none else some b
          | none => none }
    response :=
      match instantlyStatus.repliedAt with
      | some d => some { received := some true, responseDate := some (some d) }
      | none => none }

/-! ### LinkedIn status mapping (linkedin.js lines 152-192) -/

/-- One entry of the container-output list returned by the automation
provider, with the fields the sync path reads (`details.internalId` is
flattened to `internalId`). -/
structure LnResult where
  internalId : Option String := none
  resultId : Option String := none
  replied : Bool := false
  accepted : Bool := false
  sent : Bool := false
  failed : Bool := false
  message : Option String := none
  responseText : Option String := none
  responseDate : Option Nat := none
  sentAt : Option Nat := none
  scheduledAt : Option Nat := none
  connectionStatus : Option String := none
  deriving Repr, DecidableEq

/-- LinkedInService.determineOutreachStatus (linkedin.js lines 180-192). -/
def determineOutreachStatus (od : LnResult) : String :=
  if od.replied then "Replied"
  else if od.accepted then "Delivered"
  else if od.sent then "Sent"
  else if od.failed then "Failed"
  else "Scheduled"

/-- LinkedInService.mapLinkedInOutreachToInternal (linkedin.js lines
152-177); the source field `id` of the provider entry is `resultId` here. -/
def mapLinkedInOutreachToInternal (od : LnResult) (leadId : String)
    (type : Option String) (now : Nat) : UpdatedData :=
  { status := determineOutreachStatus od
    sentAt := od.sentAt
    scheduledAt := some (od.scheduledAt.getD now)
    lead := some leadId
    type := some "LinkedIn"
    channel := some "LinkedIn"
    linkedin := some
      { messageType := jsOrS type "Connection Request"
        message := jsOrS od.message ""
        connectionStatus := jsOrS od.connectionStatus "Pending" }
    response := some
      { received := some od.replied
        responseText := some (jsOrS od.responseText "")
        responseDate := some od.responseDate
        sentiment := some "N/A" }
    externalIds := some
      { linkedinActivityId := if jsTruthyS od.resultId then od.resultId else none } }

/-! ### The outreach orchestrator (outreach.js)

Each operation is a function of: which service instances `getService` can
resolve, an environment giving the outcome of every remote call the
operation may make (`Except String α`, the error carrying the thrown
message), the document stores, and the request arguments.  Each returns the
operation's result together with the outreach store (unchanged whenever the
operation throws before its save).  `new Date()` and fresh ObjectIds are the
explicit `now` and `newId` parameters. -/

/-- Which of the three services getService (outreach.js lines 61-72)
resolves for the requesting user: the per-user instance or the process-wide
default. -/
structure ServiceAvail where
  instantly : Bool := true
  salesfinity : Bool := true
  linkedin : Bool := true
  deriving Repr, DecidableEq

/-- A campaign record returned by the email provider; `status` is compared
against the numeric literal 1 ("running") in sendEmail. -/
structure InstantlyCampaign where
  id : String
  name : String
  status : Option Nat := none
  deriving Repr, DecidableEq

/-- Outcomes of the remote calls sendEmail can make.  testConnection
(InstantlyService v2, part_004 lines 38-57) never throws: it returns a
boolean.  addLeadsToCampaign and startCampaign are best-effort in sendEmail:
their failures are caught and swallowed. -/
structure EmailEnv where
  testConnection : Bool := true
  getCampaigns : Except String (List InstantlyCampaign) := .ok []
  createCampaign : Except String InstantlyCampaign := .ok { id := "", name := "" }
  addLeadsToCampaign : Except String Unit := .ok ()
  startCampaign : Except String Unit := .ok ()
  deriving Repr

/-- The emailData argument of sendEmail. -/
structure EmailData where
  subject : Option String := none
  body : Option String := none
  fromName : Option String := none
  fromEmail : Option String := none
  scheduledAt : Option Nat := none
  deriving Repr, DecidableEq

/-- The externalIds object sendEmail passes to the Outreach constructor
(outreach.js lines 167-169): a single key, `instantlyCampaignId`. -/
structure EmailExternalIdsArg where
  instantlyCampaignId : String
  deriving Repr, DecidableEq

/-- Mongoose strict-mode projection of sendEmail's externalIds argument onto
the schema paths.  outreachSchema.externalIds (part_010 lines 107-111)
defines only instantlyId, salesfinityId and linkedinActivityId; strict mode
(the mongoose default) silently ignores the unknown `instantlyCampaignId`
path, so none of the schema keys receives a value. -/
def persistedEmailExternalIds (_a : EmailExternalIdsArg) : ExternalIds := {}

/-- The Outreach document built by sendEmail (outreach.js lines 154-171). -/
def emailOutreachDoc (leadId campaignId userId : String) (emailData : EmailData)
    (instantlyCampaignId : String) (now : Nat) : OutreachRecord :=
  { lead := leadId
    campaign := some campaignId
    type := "Email"
    channel := "Instantly"
    status := "Scheduled"
    scheduledAt := some (emailData.scheduledAt.getD now)
    email :=
      { subject := emailData.subject
        body := emailData.body
        fromName := emailData.fromName
        fromEmail := emailData.fromEmail }
    externalIds := persistedEmailExternalIds { instantlyCampaignId := instantlyCampaignId }
    performedBy := userId }

/-- The if/else of outreach.js lines 126-135: the matching remote campaign's
id if one has the same name, otherwise the id of a freshly created remote
campaign (whose creation may fail). -/
def resolveInstantlyCampaignId (env : EmailEnv)
    (matchingCampaign : Option InstantlyCampaign) : Except String String :=
  match matchingCampaign with
  | some c => .ok c.id
  | none =>
    match env.createCampaign with
    | .error e => .error e
    | .ok newCampaign => .ok newCampaign.id

/-- OutreachService.sendEmail (outreach.js lines 94-189). -/
def sendEmail (avail : ServiceAvail) (env : EmailEnv) (leads : Store Lead)
    (campaigns : Store Campaign) (ostore : Store OutreachRecord)
    (userId campaignId leadId : String) (emailData : EmailData)
    (newId : String) (now : Nat) :
    Except String OutreachRecord × Store OutreachRecord :=
  if ¬ avail.instantly then
    (.error "Error sending email: Instantly service not configured", ostore)
  else
    match findById leads leadId with
    | none => (.error "Error sending email: Lead not found", ostore)
    | some _lead =>
      if ¬ env.testConnection then
        (.error "Error sending email: Failed to connect to Instantly API", ostore)
      else
        match findById campaigns campaignId with
        | none => (.error "Error sending email: Campaign not found", ostore)
        | some campaign =>
          match env.getCampaigns with
          | .error e => (.error ("Error sending email: " ++ e), ostore)
          | .ok instantlyCampaigns =>
            let matchingCampaign := instantlyCampaigns.find? (fun c => c.name = campaign.name)
            match resolveInstantlyCampaignId env matchingCampaign with
            | .error e => (.error ("Error sending email: " ++ e), ostore)
            | .ok instantlyCampaignId =>
              -- addLeadsToCampaign is wrapped in its own try/catch: any
              -- failure is logged and swallowed (outreach.js lines 147-151),
              -- so env.addLeadsToCampaign is not consulted.
              let outreach := emailOutreachDoc leadId campaignId userId emailData
                instantlyCampaignId now
              -- startCampaign (run only when the matching campaign exists
              -- with status ≠ 1) is likewise caught and swallowed
              -- (outreach.js lines 176-183).
              (.ok outreach, storeAdd ostore newId outreach)

/-- One entry of the `contacts` array in the result of the call provider's
addContactsToCampaign. -/
structure SfContactRef where
  id : String
  deriving Repr, DecidableEq

/-- The result of addContactsToCampaign; scheduleCall reads
`contacts[0].id`. -/
structure SfAddResult where
  contacts : List SfContactRef := []
  deriving Repr, DecidableEq

/-- The result of the call provider's scheduleCall. -/
structure SfScheduleResult where
  id : String
  deriving Repr, DecidableEq

/-- Outcomes of the remote calls scheduleCall can make (the legacy
SalesfinityService surface the orchestrator was written against:
addContactsToCampaign, part_005 lines 55-64, and the two-argument
scheduleCall, part_005 lines 117-124). -/
structure CallEnv where
  addContactsToCampaign : Except String SfAddResult := .ok {}
  scheduleCall : Except String SfScheduleResult := .ok { id := "" }
  deriving Repr

/-- The callData argument of scheduleCall. -/
structure CallData where
  scheduledAt : Option Nat := none
  notes : Option String := none
  script : Option String := none
  deriving Repr, DecidableEq

/-- OutreachService.scheduleCall (outreach.js lines 192-244). -/
def scheduleCall (avail : ServiceAvail) (env : CallEnv) (leads : Store Lead)
    (ostore : Store OutreachRecord) (userId campaignId leadId : String)
    (callData : CallData) (newId : String) (now : Nat) :
    Except String OutreachRecord × Store OutreachRecord :=
  if ¬ avail.salesfinity then
    (.error "Error scheduling call: Salesfinity service not configured for this user", ostore)
  else
    match findById leads leadId with
    | none => (.error "Error scheduling call: Lead not found", ostore)
    | some lead =>
      -- const formattedContact = service.mapLeadToSalesfinityContact(lead)
      -- (salesfinity.js lines 355-370); the contact is sent to the provider.
      let _formattedContact := Salesfinity.mapLeadToSalesfinityContact lead
      match env.addContactsToCampaign with
      | .error e => (.error ("Error scheduling call: " ++ e), ostore)
      | .ok contactResult =>
        match contactResult.contacts with
        | [] =>
          -- contactResult.contacts[0] is undefined; reading .id throws a
          -- TypeError that the outer catch wraps.
          (.error "Error scheduling call: Cannot read properties of undefined (reading 'id')",
           ostore)
        | _c0 :: _ =>
          match env.scheduleCall with
          | .error e => (.error ("Error scheduling call: " ++ e), ostore)
          | .ok result =>
            let outreach : OutreachRecord :=
              { lead := leadId
                campaign := some campaignId
                type := "Call"
                channel := "Salesfinity"
                status := "Scheduled"
                scheduledAt := some (callData.scheduledAt.getD now)
                call :=
                  { notes := some (jsOrS callData.notes "")
                    dialedNumber := some (jsOrS lead.phone "")
                    outcome := some "No Answer" }
                externalIds := { salesfinityId := some result.id }
                performedBy := userId }
            (.ok outreach, storeAdd ostore newId outreach)

/-- The result of the automation provider's agent launch; the orchestrator
reads `containerId`. -/
structure LnLaunchResult where
  containerId : Option String := none
  deriving Repr, DecidableEq

/-- Outcomes of the remote calls the two LinkedIn operations can make. -/
structure LinkedInEnv where
  launchConnectionCampaign : Except String LnLaunchResult := .ok {}
  launchMessagingCampaign : Except String LnLaunchResult := .ok {}
  deriving Repr

/-- The messageData argument of the LinkedIn operations. -/
structure MessageData where
  message : String := ""
  sessionCookie : Option String := none
  agentId : Option String := none
  campaignId : Option String := none
  deriving Repr, DecidableEq

/-- OutreachService.sendLinkedInConnection (outreach.js lines 247-315). -/
def sendLinkedInConnection (avail : ServiceAvail) (env : LinkedInEnv)
    (leads : Store Lead) (ostore : Store OutreachRecord)
    (userId leadId : String) (messageData : MessageData)
    (newId : String) (now : Nat) :
    Except String OutreachRecord × Store OutreachRecord :=
  if ¬ avail.linkedin then
    (.error "Error sending LinkedIn connection: LinkedIn service not configured for this user",
     ostore)
  else
    match findById leads leadId with
    | none => (.error "Error sending LinkedIn connection: Lead not found", ostore)
    | some lead =>
      if ¬ jsTruthyS lead.linkedinUrl then
        (.error "Error sending LinkedIn connection: Lead does not have LinkedIn URL", ostore)
      else
        let connectionMessage := createConnectionTemplate messageData.message lead
        match env.launchConnectionCampaign with
        | .error e => (.error ("Error sending LinkedIn connection: " ++ e), ostore)
        | .ok result =>
          let outreach : OutreachRecord :=
            { lead := leadId
              campaign := if jsTruthyS messageData.campaignId then messageData.campaignId else none
              type := "LinkedIn"
              channel := "LinkedIn"
              status := "Scheduled"
              scheduledAt := some now
              linkedin :=
                { messageType := some "Connection Request"
                  message := some connectionMessage
                  connectionStatus := some "Pending" }
              externalIds := { linkedinActivityId := result.containerId }
              performedBy := userId }
          (.ok outreach, storeAdd ostore newId outreach)

/-- OutreachService.sendLinkedInMessage (outreach.js lines 318-386). -/
def sendLinkedInMessage (avail : ServiceAvail) (env : LinkedInEnv)
    (leads : Store Lead) (ostore : Store OutreachRecord)
    (userId leadId : String) (messageData : MessageData)
    (newId : String) (now : Nat) :
    Except String OutreachRecord × Store OutreachRecord :=
  if ¬ avail.linkedin then
    (.error "Error sending LinkedIn message: LinkedIn service not configured for this user",
     ostore)
  else
    match findById leads leadId with
    | none => (.error "Error sending LinkedIn message: Lead not found", ostore)
    | some lead =>
      if ¬ jsTruthyS lead.linkedinUrl then
        (.error "Error sending LinkedIn message: Lead does not have LinkedIn URL", ostore)
      else
        let personalizedMessage := createMessageTemplate messageData.message lead
        match env.launchMessagingCampaign with
        | .error e => (.error ("Error sending LinkedIn message: " ++ e), ostore)
        | .ok result =>
          let outreach : OutreachRecord :=
            { lead := leadId
              campaign := if jsTruthyS messageData.campaignId then messageData.campaignId else none
              type := "LinkedIn"
              channel := "LinkedIn"
              status := "Scheduled"
              scheduledAt := some now
              linkedin :=
                { messageType := some "Direct Message"
                  message := some personalizedMessage
                  connectionStatus := some "Accepted" }
              externalIds := { linkedinActivityId := result.containerId }
              performedBy := userId }
          (.ok outreach, storeAdd ostore newId outreach)

/-- Outcomes of the remote fetches syncOutreachStatus can make, plus the
clock read by the Date.now() fallbacks inside the mappers. -/
structure SyncEnv where
  getLeadStatus : Except String InstantlyStatus := .ok {}
  getCall : Except String Salesfinity.SfCall := .ok {}
  getCampaignResults : Except String (List LnResult) := .ok []
  now : Nat := 0
  deriving Repr

/-- OutreachService.syncOutreachStatus (outreach.js lines 403-467): fetches
the record, dispatches on its channel, and only when the channel-specific
external id is truthy fetches remote state and maps it; a non-null
updatedData is overlaid field-by-field and saved, otherwise the record is
returned unchanged. -/
def syncOutreachStatus (env : SyncEnv) (ostore : Store OutreachRecord)
    (outreachId : String) :
    Except String OutreachRecord × Store OutreachRecord :=
  match findById ostore outreachId with
  | none => (.error "Error syncing outreach status: Outreach not found", ostore)
  | some outreach =>
    let updRes : Except String (Option UpdatedData) :=
      match outreach.channel with
      | "Instantly" =>
        if jsTruthyS outreach.externalIds.instantlyId then
          match env.getLeadStatus with
          | .error e => .error e
          | .ok leadStatus => .ok (some (mapInstantlyStatusToOutreach leadStatus))
        else .ok none
      | "Salesfinity" =>
        if jsTruthyS outreach.externalIds.salesfinityId then
          match env.getCall with
          | .error e => .error e
          | .ok callData =>
            .ok (some (Salesfinity.mapSalesfinityCallToOutreach callData outreach.lead env.now))
        else .ok none
      | "LinkedIn" =>
        if jsTruthyS outreach.externalIds.linkedinActivityId then
          match env.getCampaignResults with
          | .error e => .error e
          | .ok results =>
            match results.find? (fun r => r.internalId == some outreach.lead) with
            | some leadResult =>
              .ok (some (mapLinkedInOutreachToInternal leadResult outreach.lead
                outreach.linkedin.messageType env.now))
            | none => .ok none
        else .ok none
      | _ => .ok none
    match updRes with
    | .error e => (.error ("Error syncing outreach status: " ++ e), ostore)
    | .ok none => (.ok outreach, ostore)
    | .ok (some updatedData) =>
      let updated := mergeOutreach outreach updatedData
      (.ok updated, storeSet ostore outreachId updated)

/-- The channel-specific external id of a record, as consulted by the
guards in syncOutreachStatus. -/
def channelExternalId (r : OutreachRecord) : Option String :=
  match r.channel with
  | "Instantly" => r.externalIds.instantlyId
  | "Salesfinity" => r.externalIds.salesfinityId
  | "LinkedIn" => r.externalIds.linkedinActivityId
  | _ => none

/-- Extract the success value of an operation result, with a fallback. -/
def okOr {α : Type} (e : Except String α) (d : α) : α :=
  match e with
  | .ok a => a
  | .error _ => d

/-- A placeholder record used only as the fallback of `okOr` in concrete
evaluations. -/
def dfltOutreach : OutreachRecord :=
  { lead := "", type := "", channel := "", performedBy := "" }

/-! ### Concrete fixtures for evaluations and witnesses -/

/-- A sync environment whose call-provider fetch returns a call whose
disposition has external_name "interested". -/
def syncEnvInterested : SyncEnv :=
  { getCall := .ok
      { callId := some "sf1"
        toNumber := some "+15550000000"
        disposition := some { external_name := some "interested" }
        createdAt := some 100
        updatedAt := some 200 }
    now := 300 }

/-- A persisted Salesfinity call Outreach whose external id is set. -/
def outreachInterested : OutreachRecord :=
  { lead := "lead1"
    campaign := some "cp1"
    type := "Call"
    channel := "Salesfinity"
    status := "Scheduled"
    scheduledAt := some 50
    call := { notes := some "", dialedNumber := some "+15550000000", outcome := some "No Answer" }
    externalIds := { salesfinityId := some "sf1" }
    performedBy := "u1" }

/-- First sync of the record above. -/
def syncOnceInterested : Except String OutreachRecord × Store OutreachRecord :=
  syncOutreachStatus syncEnvInterested [("o1", outreachInterested)] "o1"

/-- Second sync, against the store the first sync produced, with the remote
state unchanged. -/
def syncTwiceInterested : Except String OutreachRecord × Store OutreachRecord :=
  syncOutreachStatus syncEnvInterested syncOnceInterested.2 "o1"

/-- An email environment with one remote campaign named like the local one. -/
def emailEnvMatch : EmailEnv :=
  { getCampaigns := .ok [{ id := "remoteC1", name := "Test Integration Campaign", status := some 2 }] }

/-- A concrete successful sendEmail run. -/
def sendEmailRun : Except String OutreachRecord × Store OutreachRecord :=
  sendEmail {} emailEnvMatch
    [("l1", { id := "l1", email := "test.lead@example.com",
              firstName := some "Test", lastName := some "Lead" })]
    [("cp1", { id := "cp1", name := "Test Integration Campaign" })]
    [] "u1" "cp1" "l1" { subject := some "Hello" } "o1" 7

/-- A call environment whose remote steps succeed. -/
def callEnvOk : CallEnv :=
  { addContactsToCampaign := .ok { contacts := [{ id := "ct1" }] }
    scheduleCall := .ok { id := "call1" } }

/-- A concrete scheduleCall run on a lead that has no phone field. -/
def scheduleCallRun : Except String OutreachRecord × Store OutreachRecord :=
  scheduleCall {} callEnvOk
    [("l1", { id := "l1", email := "nophone@example.com" })]
    [] "u1" "cp1" "l1" {} "o1" 9

/-- The lead store used by the creation witnesses: one lead with a LinkedIn
profile URL. -/
def witnessLeads : Store Lead :=
  [("l1", { id := "l1", email := "test.lead@example.com",
            linkedinUrl := some "https://www.linkedin.com/in/test" })]

/-- The campaign store used by the creation witnesses. -/
def witnessCampaigns : Store Campaign :=
  [("cp1", { id := "cp1", name := "Test Integration Campaign" })]

/-- A record with no external ids, stored under "o9". -/
def noExternalIdsRecord : OutreachRecord :=
  { lead := "lead9", type := "Email", channel := "Instantly", performedBy := "u1" }

/-- The store holding only that record. -/
def noExternalIdsStore : Store OutreachRecord := [("o9", noExternalIdsRecord)]

/-- A lead without a LinkedIn profile URL. -/
def leadWithoutUrl : Lead := { id := "l7", email := "nourl@example.com" }

end SalesPipeline

namespace SalesPipeline

/-- C9: hasChannelAccess returns true exactly when the user has the channel's
integration enabled or a global default adapter is configured for that
channel, except that the "Personal Email" channel is always permitted. -/
theorem c9_hasChannelAccess_entitlement (d : Defaults) (u : User) (c : String) :
    hasChannelAccess d u c = specChannelAccess d u c := by
  unfold hasChannelAccess specChannelAccess
  split <;> simp_all

/-- C6: for every input message and every lead, the LinkedIn
connection-request template produced by createConnectionTemplate after
placeholder substitution has length at most 300 characters. -/
theorem c6_connection_template_at_most_300 (message : String) (lead : Lead) :
    (createConnectionTemplate message lead).length ≤ 300 := by
  unfold createConnectionTemplate jsSubstring
  change (List.take 300 _).length ≤ 300
  rw [List.length_take]
  exact Nat.min_le_left _ _

/-- C1: every Outreach record created by a successful sendEmail,
scheduleCall, sendLinkedInConnection or sendLinkedInMessage call has status
"Scheduled" immediately after creation, for every environment, in
particular for every outcome of the best-effort remote sub-steps. -/
theorem c1_created_outreach_is_scheduled
    (avail : ServiceAvail) (eenv : EmailEnv) (cenv : CallEnv) (lenv : LinkedInEnv)
    (leads : Store Lead) (campaigns : Store Campaign) (ostore : Store OutreachRecord)
    (userId campaignId leadId : String) (emailData : EmailData) (callData : CallData)
    (messageData : MessageData) (newId : String) (now : Nat) :
    (∀ o st, sendEmail avail eenv leads campaigns ostore userId campaignId leadId
        emailData newId now = (.ok o, st) → o.status = "Scheduled") ∧
    (∀ o st, scheduleCall avail cenv leads ostore userId campaignId leadId
        callData newId now = (.ok o, st) → o.status = "Scheduled") ∧
    (∀ o st, sendLinkedInConnection avail lenv leads ostore userId leadId
        messageData newId now = (.ok o, st) → o.status = "Scheduled") ∧
    (∀ o st, sendLinkedInMessage avail lenv leads ostore userId leadId
        messageData newId now = (.ok o, st) → o.status = "Scheduled") := by
  refine ⟨?_, ?_, ?_, ?_⟩ <;>
    · intro o st h
      first
      | (unfold sendEmail at h)
      | (unfold scheduleCall at h)
      | (unfold sendLinkedInConnection at h)
      | (unfold sendLinkedInMessage at h)
      try simp only [] at h
      repeat' split at h
      all_goals simp only [Prod.mk.injEq, emailOutreachDoc] at h
      all_goals
        first
        | (obtain ⟨h1, h2⟩ := h; cases h1; rfl)
        | simp_all

/-- C4: syncOutreachStatus on a stored record whose channel-specific
external id is absent returns the record with every field unchanged, leaves
the store untouched, and raises no error. -/
theorem c4_sync_absent_external_id_is_noop (env : SyncEnv)
    (ostore : Store OutreachRecord) (oid : String) (r : OutreachRecord)
    (hfind : findById ostore oid = some r)
    (hid : channelExternalId r = none) :
    syncOutreachStatus env ostore oid = (.ok r, ostore) := by
  unfold syncOutreachStatus
  rw [hfind]
  unfold channelExternalId at hid
  split at hid <;> simp_all [jsTruthyS]

/-- C7: sendLinkedInConnection on a lead without a linkedinUrl fails with
the missing-LinkedIn-profile error and creates no Outreach record (the
outreach store is returned unchanged). -/
theorem c7_missing_linkedin_url_aborts (avail : ServiceAvail) (env : LinkedInEnv)
    (leads : Store Lead) (ostore : Store OutreachRecord)
    (userId leadId : String) (messageData : MessageData) (newId : String) (now : Nat)
    (lead : Lead)
    (hs : avail.linkedin = true)
    (hfind : findById leads leadId = some lead)
    (hurl : lead.linkedinUrl = none) :
    sendLinkedInConnection avail env leads ostore userId leadId messageData newId now =
      (.error "Error sending LinkedIn connection: Lead does not have LinkedIn URL", ostore) := by
  unfold sendLinkedInConnection
  rw [hfind]
  simp [hs, hurl, jsTruthyS]

/-- C10: whenever syncOutreachStatus succeeds, the fields lead, campaign,
sequence, type, channel, externalIds, performedBy, followUps,
parentOutreach, followUpCount and notes of the returned record equal those
of the stored record: only status, sentAt and the email/call/linkedin/
response sub-objects can change. -/
theorem c10_sync_frame (env : SyncEnv) (ostore : Store OutreachRecord)
    (oid : String) (r o : OutreachRecord) (st' : Store OutreachRecord)
    (hfind : findById ostore oid = some r)
    (h : syncOutreachStatus env ostore oid = (.ok o, st')) :
    o.lead = r.lead ∧ o.campaign = r.campaign ∧ o.sequence = r.sequence ∧
    o.type = r.type ∧ o.channel = r.channel ∧ o.externalIds = r.externalIds ∧
    o.performedBy = r.performedBy ∧ o.followUps = r.followUps ∧
    o.parentOutreach = r.parentOutreach ∧ o.followUpCount = r.followUpCount ∧
    o.notes = r.notes := by
  unfold syncOutreachStatus at h
  rw [hfind] at h
  try simp only [] at h
  repeat' split at h
  all_goals simp only [Prod.mk.injEq] at h
  all_goals
    first
    | (obtain ⟨h1, h2⟩ := h; cases h1; simp [mergeOutreach])
    | simp_all

/-- C2: evaluation of two sequential syncOutreachStatus calls against a
Salesfinity record whose remote disposition.external_name is "interested":
both calls succeed, the two calls agree on the persisted fields (the sync is
idempotent here), and both leave call.outcome equal to the raw string
"interested" — not "Interested", because mapCallOutcome in the resolved
salesfinity.js returns disposition.external_name unchanged. -/
theorem c2_sync_interested_keeps_raw_outcome :
    (okOr syncOnceInterested.1 dfltOutreach).call.outcome = some "interested" ∧
    (okOr syncTwiceInterested.1 dfltOutreach).call.outcome = some "interested" ∧
    okOr syncTwiceInterested.1 dfltOutreach = okOr syncOnceInterested.1 dfltOutreach ∧
    syncTwiceInterested.2 = syncOnceInterested.2 ∧
    ("interested" : String) ≠ "Interested" :=
  ⟨rfl, rfl, rfl, rfl, by decide⟩

/-- C3: evaluation of a successful sendEmail run: the remote campaign id
"remoteC1" is resolved and passed to the Outreach constructor under the
externalIds.instantlyCampaignId key, but the outreachSchema defines no such
path, so the persisted record's externalIds carries no value under any key
(mongoose strict mode drops the unknown path). -/
theorem c3_instantly_campaign_id_not_persisted :
    sendEmailRun.1 = .ok (okOr sendEmailRun.1 dfltOutreach) ∧
    persistedEmailExternalIds { instantlyCampaignId := "remoteC1" } =
      { instantlyId := none, salesfinityId := none, linkedinActivityId := none } ∧
    (okOr sendEmailRun.1 dfltOutreach).externalIds =
      { instantlyId := none, salesfinityId := none, linkedinActivityId := none } :=
  ⟨rfl, rfl, rfl⟩

/-- C5: the call-outcome mapping used by the resolved salesfinity.js when
translating a provider call into an Outreach returns the raw external_name
("answered" stays "answered", an undocumented value stays itself) instead of
the documented lookup table, which survives only in the legacy service
copies (where "answered" maps to "Answered" and an undocumented value falls
back to "No Answer"). -/
theorem c5_call_outcome_mapping_drift :
    Salesfinity.mapCallOutcome
      { disposition := some { external_name := some "answered" } } = "answered" ∧
    Salesfinity.mapCallOutcome
      { disposition := some { external_name := some "interested" } } = "interested" ∧
    Salesfinity.mapCallOutcome
      { disposition := some { external_name := some "left_live_message" } } = "left_live_message" ∧
    Salesfinity.mapCallOutcome { disposition := none } = "Unknown" ∧
    SalesfinityLegacy.mapCallOutcome (some "answered") = "Answered" ∧
    SalesfinityLegacy.mapCallOutcome (some "interested") = "Interested" ∧
    SalesfinityLegacy.mapCallOutcome (some "left_live_message") = "No Answer" ∧
    ("answered" : String) ≠ "Answered" :=
  ⟨rfl, rfl, rfl, rfl, rfl, rfl, rfl, by decide⟩

/-- C8: evaluation of scheduleCall on a lead that has no phone field, with
the remote adapter steps succeeding: the operation succeeds, the created
Outreach has call.dialedNumber equal to the empty string (the lead.phone
fallback), and the record is saved to the store. -/
theorem c8_schedule_call_without_phone :
    scheduleCallRun.1 = .ok (okOr scheduleCallRun.1 dfltOutreach) ∧
    (okOr scheduleCallRun.1 dfltOutreach).call.dialedNumber = some "" ∧
    (okOr scheduleCallRun.1 dfltOutreach).status = "Scheduled" ∧
    scheduleCallRun.2 = [("o1", okOr scheduleCallRun.1 dfltOutreach)] :=
  ⟨rfl, rfl, rfl, rfl⟩

/-- Witness for C1: the four creation operations at concrete successful
inputs all yield records with status "Scheduled". -/
theorem c1_created_outreach_is_scheduled_witness :
    (okOr (sendEmail {} {} witnessLeads witnessCampaigns [] "u1" "cp1" "l1" {} "w1" 5).1
      dfltOutreach).status = "Scheduled" ∧
    (okOr (scheduleCall {} callEnvOk witnessLeads [] "u1" "cp1" "l1" {} "w1" 5).1
      dfltOutreach).status = "Scheduled" ∧
    (okOr (sendLinkedInConnection {} {} witnessLeads [] "u1" "l1" { message := "Hi" } "w1" 5).1
      dfltOutreach).status = "Scheduled" ∧
    (okOr (sendLinkedInMessage {} {} witnessLeads [] "u1" "l1" { message := "Hi" } "w1" 5).1
      dfltOutreach).status = "Scheduled" :=
  have kc := c1_created_outreach_is_scheduled {} {} callEnvOk {} witnessLeads
    witnessCampaigns [] "u1" "cp1" "l1" {} {} { message := "Hi" } "w1" 5
  ⟨kc.1 _ _ rfl, kc.2.1 _ _ rfl, kc.2.2.1 _ _ rfl, kc.2.2.2 _ _ rfl⟩

/-- Witness for C4: syncing the stored record without external ids returns
it unchanged along with the unchanged store. -/
theorem c4_sync_absent_external_id_is_noop_witness :
    syncOutreachStatus {} noExternalIdsStore "o9" = (.ok noExternalIdsRecord, noExternalIdsStore) :=
  c4_sync_absent_external_id_is_noop {} noExternalIdsStore "o9" noExternalIdsRecord rfl rfl

/-- Witness for C7: sendLinkedInConnection on the URL-less lead fails with
the missing-profile message and leaves the (empty) outreach store
unchanged. -/
theorem c7_missing_linkedin_url_aborts_witness :
    sendLinkedInConnection {} {} [("l7", leadWithoutUrl)] [] "u1" "l7"
        { message := "Hello" } "w7" 3 =
      (.error "Error sending LinkedIn connection: Lead does not have LinkedIn URL", []) :=
  c7_missing_linkedin_url_aborts {} {} [("l7", leadWithoutUrl)] [] "u1" "l7"
    { message := "Hello" } "w7" 3 leadWithoutUrl rfl rfl rfl

/-- Witness for C10: a sync that applies a remote update leaves the frame
fields of the concrete record unchanged. -/
theorem c10_sync_frame_witness :
    (okOr syncOnceInterested.1 dfltOutreach).lead = outreachInterested.lead ∧
    (okOr syncOnceInterested.1 dfltOutreach).campaign = outreachInterested.campaign ∧
    (okOr syncOnceInterested.1 dfltOutreach).sequence = outreachInterested.sequence ∧
    (okOr syncOnceInterested.1 dfltOutreach).type = outreachInterested.type ∧
    (okOr syncOnceInterested.1 dfltOutreach).channel = outreachInterested.channel ∧
    (okOr syncOnceInterested.1 dfltOutreach).externalIds = outreachInterested.externalIds ∧
    (okOr syncOnceInterested.1 dfltOutreach).performedBy = outreachInterested.performedBy ∧
    (okOr syncOnceInterested.1 dfltOutreach).followUps = outreachInterested.followUps ∧
    (okOr syncOnceInterested.1 dfltOutreach).parentOutreach = outreachInterested.parentOutreach ∧
    (okOr syncOnceInterested.1 dfltOutreach).followUpCount = outreachInterested.followUpCount ∧
    (okOr syncOnceInterested.1 dfltOutreach).notes = outreachInterested.notes :=
  c10_sync_frame syncEnvInterested [("o1", outreachInterested)] "o1"
    outreachInterested (okOr syncOnceInterested.1 dfltOutreach) syncOnceInterested.2
    rfl rfl

end SalesPipeline
